import Mathlib

/-!
# Verification of the clubs directory core (DAL + mutation service)

Shallow embedding of the repository's core:

* `src/lib/prisma.ts` — the generic data-access layer (DAL): `findMany`,
  `findOne`, `create`, `update`, `delete`, each a try/catch wrapper that
  swallows any fault of the underlying store.
* the tRPC clubs router (`clubsRouter`): `createClub`, `deleteClub`,
  `updateClub`, `getAllClubs`, `getClub`, each built as
  `publicProcedure.input(zodSchema).mutation(handler)`.
* the club configuration object (`club.config`): note that its `max`, `min`
  and `default` objects carry NO `linktree` key, so in JavaScript
  `config.club.max.linktree`, `config.club.min.linktree` and
  `config.club.default.linktree` all evaluate to `undefined`.

Modelling conventions: a JavaScript value that may be `undefined` is an
`Option`; `undefined` is `none`.  JS string length is modelled by Lean
`String.length` (the inputs considered are ASCII, where the two coincide).
The underlying Prisma store is modelled by explicit state (`Env`) plus
boolean fault flags standing for a throwing store; a thrown store error is
an `Except.error` fed to the DAL wrappers.  The tRPC pipeline runs the zod
input parser before the mutation handler: a parse failure surfaces as a
thrown BAD_REQUEST error, modelled as `Except.error RpcError.validationError`,
and the handler (and hence every store access) is never reached.
-/

namespace Clubs

/-- A thrown error of the underlying store (caught by the DAL wrappers). -/
inductive StoreFault : Type
  | fault : StoreFault
deriving DecidableEq, Repr

/-! ## The generic DAL (`src/lib/prisma.ts`)

Each wrapper receives the outcome of the underlying `tableRef.<op>` call:
either a thrown error or the value the store produced. -/

/-- `Prisma.findMany`: returns the rows found, or `[]` when the store threw. -/
def dalFindMany {T : Type} (res : Except StoreFault (List T)) : List T :=
  match res with
  | .ok rows => rows
  | .error _ => []

/-- `Prisma.findOne` (via `findFirst`): the first matching row or `null`;
`null` as well when the store threw. -/
def dalFindOne {T : Type} (res : Except StoreFault (Option T)) : Option T :=
  match res with
  | .ok row => row
  | .error _ => none

/-- `Prisma.create`: the created row, or `null` when the store threw. -/
def dalCreate {T : Type} (res : Except StoreFault T) : Option T :=
  match res with
  | .ok row => some row
  | .error _ => none

/-- `Prisma.update`: the updated row, or `null` when the store threw
(Prisma's `update` throws when no row matches the locator). -/
def dalUpdate {T : Type} (res : Except StoreFault T) : Option T :=
  match res with
  | .ok row => some row
  | .error _ => none

/-- `Prisma.delete`: the deleted row, or `null` when the store threw
(Prisma's `delete` throws when no row matches the locator). -/
def dalDelete {T : Type} (res : Except StoreFault T) : Option T :=
  match res with
  | .ok row => some row
  | .error _ => none

/-! ## Data model -/

/-- Permission tags; the core only ever checks for `ADMIN`. -/
inductive Permission : Type
  | ADMIN : Permission
  | other : Permission
deriving DecidableEq, Repr

/-- An identity row as returned by `getUserBySecretNoPassword` (the
projection keeps `secret` and `permissions`, drops the password). -/
structure User where
  secret : String
  permissions : List Permission
deriving DecidableEq, Repr

/-- A club row.  `linktree` and `image` are `Option` because a JS object
field may be `undefined` (the router's create in fact stores an `undefined`
linktree when none is supplied, see `config_club_default_linktree`). -/
structure Club where
  id : String
  name : String
  description : String
  linktree : Option String
  image : Option String
deriving DecidableEq, Repr

/-- The persistent state: the user table and the club table. -/
structure Env where
  users : List User
  clubs : List Club
deriving DecidableEq, Repr

/-! ## The configuration object (`club.config`)

The source object is
`{ club: { default: {name, description, location, image, events, members},
max: {name: 50, description: 100, location: 50, date: 50},
min: {name: 1, description: 1, location: 1, date: 1} } }`.
There is no `linktree` key anywhere in it, so every `....linktree` access
yields `undefined`, modelled as `none`. -/

def config_club_max_name : Nat := 50
def config_club_max_description : Nat := 100
/-- `config.club.max.linktree` — the key is absent, the access is `undefined`. -/
def config_club_max_linktree : Option Nat := none
def config_club_min_name : Nat := 1
def config_club_min_description : Nat := 1
/-- `config.club.min.linktree` — the key is absent, the access is `undefined`. -/
def config_club_min_linktree : Option Nat := none
def config_club_default_image : String := "/images/default-club-image.png"
/-- `config.club.default.linktree` — the key is absent, the access is `undefined`. -/
def config_club_default_linktree : Option String := none

/-! ## zod string checks

zod's `.max(v)` records the bound and at parse time fails iff
`data.length > v`; `.min(v)` fails iff `data.length < v`.  When the recorded
bound is `undefined` (as for linktree, whose config keys are missing) the
JS comparison `n > undefined` / `n < undefined` is `false`, so the check
never fails. -/

/-- zod `.max(bound)` check on a string (true = passes). -/
def zodMaxOk (bound : Option Nat) (s : String) : Bool :=
  match bound with
  | some b => s.length ≤ b
  | none => true

/-- zod `.min(bound)` check on a string (true = passes). -/
def zodMinOk (bound : Option Nat) (s : String) : Bool :=
  match bound with
  | some b => b ≤ s.length
  | none => true

/-- JS `x || y` on a possibly-`undefined` string: `undefined` and `""` are
falsy, any other string is truthy. -/
def jsOr (x : Option String) (y : Option String) : Option String :=
  match x with
  | some s => if s = "" then y else some s
  | none => y

/-- Modelled from the spec: `hasPermissions` (imported from
`@/lib/utils/permissions`, whose file is not among the sources) — "check the
resolved identity's permission set"; the identity is authorized when its
permission set contains every required tag, and "this core only cares about
membership of an `ADMIN` tag". -/
def hasPermissions (u : User) (required : List Permission) : Bool :=
  required.all (fun p => u.permissions.contains p)

/-- `Prisma.getUserBySecretNoPassword token` = `findOne("user", {secret: token})`:
with a healthy store, the first user row whose `secret` equals the token. -/
def getUserBySecretNoPassword (authFault : Bool) (users : List User)
    (token : String) : Option User :=
  dalFindOne (if authFault then .error .fault
              else .ok (users.find? (fun u => u.secret == token)))

/-! ## Router inputs and results -/

/-- Input of `createClub` (after transport): `accessToken` plus the club
fields of its zod object; `linktree` and `image` are `.optional()`. -/
structure CreateClubInput where
  accessToken : String
  name : String
  description : String
  linktree : Option String
  image : Option String
deriving DecidableEq, Repr

/-- Input of `updateClub`: `accessToken` plus `{id, name, description, image?}`
(its zod object has no `linktree` field). -/
structure UpdateClubInput where
  accessToken : String
  id : String
  name : String
  description : String
  image : Option String
deriving DecidableEq, Repr

/-- The uniform mutation envelope `{success, club}`. -/
structure MutResult where
  success : Bool
  club : Option Club
deriving DecidableEq, Repr

/-- The `getAllClubs` envelope `{success, clubs}`. -/
structure ClubsResult where
  success : Bool
  clubs : List Club
deriving DecidableEq, Repr

/-- An error thrown by the tRPC pipeline: the zod input parser failing
(BAD_REQUEST), before the mutation handler runs. -/
inductive RpcError : Type
  | validationError : RpcError
deriving DecidableEq, Repr

/-- The zod input check of `createClub`:
`name` against `max(config.club.max.name).min(config.club.min.name)`,
`description` likewise, and `linktree` (when present) against the — absent —
`config.club.max.linktree` / `config.club.min.linktree` bounds. -/
def createClubParseOk (i : CreateClubInput) : Bool :=
  zodMaxOk (some config_club_max_name) i.name &&
  zodMinOk (some config_club_min_name) i.name &&
  zodMaxOk (some config_club_max_description) i.description &&
  zodMinOk (some config_club_min_description) i.description &&
  (match i.linktree with
   | some l => zodMaxOk config_club_max_linktree l && zodMinOk config_club_min_linktree l
   | none => true)

/-- The zod input check of `updateClub` (`id` is a bare `z.string()`). -/
def updateClubParseOk (i : UpdateClubInput) : Bool :=
  zodMaxOk (some config_club_max_name) i.name &&
  zodMinOk (some config_club_min_name) i.name &&
  zodMaxOk (some config_club_max_description) i.description &&
  zodMinOk (some config_club_min_description) i.description

/-! ## The five procedures

Each mutation procedure is the full tRPC pipeline: first the zod input
parse (an `Except.error` when it fails, the handler never runs), then the
handler's authorization gate and store calls.  `freshId` stands for the
`uuidv4()` value; `authFault` / `opFault` say whether the underlying store
throws on the identity lookup / on the club operation. -/

/-- The object literal `createClub` hands to `Prisma.createClub`:
`{id: uuidv4(), name, description, image: club.image || config.club.default.image,
linktree: club.linktree || config.club.default.linktree}`. -/
def builtClub (freshId : String) (i : CreateClubInput) : Club :=
  { id := freshId
    name := i.name
    description := i.description
    image := jsOr i.image (some config_club_default_image)
    linktree := jsOr i.linktree config_club_default_linktree }

/-- `createClub`. -/
def createClub (env : Env) (freshId : String) (authFault opFault : Bool)
    (input : CreateClubInput) : Except RpcError MutResult × Env :=
  if createClubParseOk input = false then
    (.error .validationError, env)
  else
    match getUserBySecretNoPassword authFault env.users input.accessToken with
    | none => (.ok ⟨false, none⟩, env)
    | some user =>
      if hasPermissions user [Permission.ADMIN] = false then
        (.ok ⟨false, none⟩, env)
      else
        match dalCreate (if opFault then .error .fault
                         else .ok (builtClub freshId input)) with
        | none => (.ok ⟨false, none⟩, env)
        | some created => (.ok ⟨true, some created⟩,
            { env with clubs := env.clubs ++ [builtClub freshId input] })

/-- `Prisma.updateClubById`: locate the row by its (unique) id, apply the
patch `{name, description, image}` (the update data carries no linktree, so
the stored linktree is kept), return the patched row; Prisma's `update`
throws — caught to `null`, state unchanged — when no row matches. -/
def updateClubById (clubs : List Club) (id name description : String)
    (image : Option String) : Option Club × List Club :=
  match clubs.find? (fun c => c.id == id) with
  | none => (none, clubs)
  | some c =>
    let patched : Club := { c with name := name, description := description,
                                   image := image }
    (some patched, clubs.map (fun x => if x.id == id then patched else x))

/-- `updateClub`. -/
def updateClub (env : Env) (authFault opFault : Bool)
    (input : UpdateClubInput) : Except RpcError MutResult × Env :=
  if updateClubParseOk input = false then
    (.error .validationError, env)
  else
    match getUserBySecretNoPassword authFault env.users input.accessToken with
    | none => (.ok ⟨false, none⟩, env)
    | some user =>
      if hasPermissions user [Permission.ADMIN] = false then
        (.ok ⟨false, none⟩, env)
      else
        if opFault then (.ok ⟨false, none⟩, env)
        else
          match updateClubById env.clubs input.id input.name input.description
              (jsOr input.image (some config_club_default_image)) with
          | (none, _) => (.ok ⟨false, none⟩, env)
          | (some updated, clubs') => (.ok ⟨true, some updated⟩,
              { env with clubs := clubs' })

/-- `Prisma.deleteClubById`: remove and return the row matching the id, or
`null` (state unchanged) when none matches. -/
def deleteClubById (clubs : List Club) (id : String) : Option Club × List Club :=
  match clubs.find? (fun c => c.id == id) with
  | none => (none, clubs)
  | some c => (some c, clubs.eraseP (fun x => x.id == id))

/-- `deleteClub` (its zod input `{accessToken, id}` is two bare strings, so
the parse never fails and the pipeline yields no thrown error). -/
def deleteClub (env : Env) (authFault opFault : Bool)
    (token id : String) : MutResult × Env :=
  match getUserBySecretNoPassword authFault env.users token with
  | none => (⟨false, none⟩, env)
  | some user =>
    if hasPermissions user [Permission.ADMIN] = false then
      (⟨false, none⟩, env)
    else
      if opFault then (⟨false, none⟩, env)
      else
        match deleteClubById env.clubs id with
        | (none, _) => (⟨false, none⟩, env)
        | (some deleted, clubs') => (⟨true, some deleted⟩,
            { env with clubs := clubs' })

/-- `getAllClubs`: `Prisma.getAllClubs()` = `findMany("club", {})`, then an
unconditional `{success: true, clubs}`. -/
def getAllClubs (env : Env) (fault : Bool) : ClubsResult :=
  ⟨true, dalFindMany (if fault then .error .fault else .ok env.clubs)⟩

/-- `getClub`: `Prisma.getClubById` = `findOne("club", {id})`, then the
envelope (its zod input is a bare string, the parse never fails). -/
def getClub (env : Env) (fault : Bool) (id : String) : MutResult :=
  match dalFindOne (if fault then .error .fault
                    else .ok (env.clubs.find? (fun c => c.id == id))) with
  | none => ⟨false, none⟩
  | some c => ⟨true, some c⟩

/-! ## Concrete fixtures (an identity store with one ADMIN user, club payloads) -/

/-- A user holding the `ADMIN` tag, reachable by the secret `"admintoken"`. -/
def adminUser : User := ⟨"admintoken", [Permission.ADMIN]⟩

/-- An environment with the admin user and an empty club table. -/
def envAdmin : Env := ⟨[adminUser], []⟩

/-- An environment with no users and no clubs: no token resolves. -/
def env0 : Env := ⟨[], []⟩

/-- A payload passing the create input schema. -/
def okCreateInput : CreateClubInput :=
  ⟨"sometoken", "Chess Club", "We play chess", none, none⟩

/-- A payload passing the update input schema. -/
def okUpdateInput : UpdateClubInput :=
  ⟨"sometoken", "club-1", "Chess Club", "We play chess", none⟩

/-- A create payload whose `name` is empty (length 0, below the minimum 1). -/
def badCreateInput : CreateClubInput := ⟨"sometoken", "", "We play chess", none, none⟩

/-- An update payload whose `name` is empty. -/
def badUpdateInput : UpdateClubInput := ⟨"sometoken", "club-1", "", "We play chess", none⟩

/-! ## Envelope checkers (claim C5) -/

/-- The envelope invariant: `success` iff the `club` field is non-null. -/
def envelopeOk (r : MutResult) : Bool := r.success == r.club.isSome

/-- The envelope invariant lifted over the pipeline: a thrown validation
error is not an envelope. -/
def pipelineEnvelopeOk (r : Except RpcError MutResult) : Bool :=
  match r with
  | .ok v => envelopeOk v
  | .error _ => true

/-- C5: in every result envelope returned by `createClub`, `updateClub`,
`deleteClub` and `getClub`, `success = false` pairs with `club = null` and
`success = true` pairs with a non-null club. -/
theorem envelope_success_iff_club_present (env : Env) (freshId : String)
    (af cf uf df gf : Bool) (ci : CreateClubInput) (ui : UpdateClubInput)
    (token id gid : String) :
    pipelineEnvelopeOk (createClub env freshId af cf ci).1 = true ∧
    pipelineEnvelopeOk (updateClub env af uf ui).1 = true ∧
    envelopeOk (deleteClub env af df token id).1 = true ∧
    envelopeOk (getClub env gf gid) = true := by
  refine ⟨?_, ?_, ?_, ?_⟩
  · unfold createClub
    split
    · rfl
    · split
      · rfl
      · split
        · rfl
        · split <;> rfl
  · unfold updateClub
    split
    · rfl
    · split
      · rfl
      · split
        · rfl
        · split
          · rfl
          · split <;> rfl
  · unfold deleteClub
    split
    · rfl
    · split
      · rfl
      · split
        · rfl
        · split <;> rfl
  · unfold getClub
    split <;> rfl

/-- C8: every DAL wrapper is total by construction (it is a plain function
into a non-error type) and collapses any fault of the underlying store to the
empty/absent result, while passing a healthy store's answer through. -/
theorem dal_total_fault_collapses_to_absent (T : Type) (rows : List T)
    (row : Option T) (v : T) :
    dalFindMany (T := T) (.error .fault) = [] ∧
    dalFindOne (T := T) (.error .fault) = none ∧
    dalCreate (T := T) (.error .fault) = none ∧
    dalUpdate (T := T) (.error .fault) = none ∧
    dalDelete (T := T) (.error .fault) = none ∧
    dalFindMany (.ok rows) = rows ∧
    dalFindOne (.ok row) = row ∧
    dalCreate (.ok v) = some v ∧
    dalUpdate (.ok v) = some v ∧
    dalDelete (.ok v) = some v :=
  ⟨rfl, rfl, rfl, rfl, rfl, rfl, rfl, rfl, rfl, rfl⟩

/-- C9: `getAllClubs` returns `success: true` unconditionally; a store fault
is observable only as `success: true` with an empty clubs sequence. -/
theorem getAllClubs_always_success (env : Env) (fault : Bool) :
    (getAllClubs env fault).success = true ∧
    getAllClubs env true = ⟨true, []⟩ ∧
    getAllClubs env false = ⟨true, env.clubs⟩ :=
  ⟨rfl, rfl, rfl⟩

/-! ## Authorization and validation ordering (claims C1, C2, C3) -/

/-- A thrown validation error is never the refusal envelope. -/
theorem validationError_ne_refusal_envelope :
    (Except.error RpcError.validationError : Except RpcError MutResult) ≠
      .ok ⟨false, none⟩ :=
  fun h => Except.noConfusion h

/-- C1 (counterexample): an unauthorized call whose payload fails the input
schema does NOT return the refusal envelope — the tRPC pipeline throws the
zod validation error before the handler runs, so `{success:false, club:null}`
"regardless of the payload" fails. -/
theorem unauthorized_invalid_payload_not_envelope :
    (createClub env0 "id-1" false false badCreateInput).1 = .error .validationError ∧
    (createClub env0 "id-1" false false badCreateInput).1 ≠ .ok ⟨false, none⟩ := by
  exact ⟨rfl, validationError_ne_refusal_envelope⟩

/-- C1 (amended): for every call to `createClub`, `updateClub` or
`deleteClub` whose payload passes the input schema and whose token does not
resolve to an identity, or resolves to one whose permission set lacks
`ADMIN`, the procedure returns `{success:false, club:null}` and performs no
store mutation. -/
theorem unauthorized_mutations_refused_without_effect (env : Env)
    (freshId : String) (af cf uf df : Bool) (ci : CreateClubInput)
    (ui : UpdateClubInput) (token id : String)
    (hci : createClubParseOk ci = true)
    (hui : updateClubParseOk ui = true)
    (hc : ∀ u, getUserBySecretNoPassword af env.users ci.accessToken = some u →
          hasPermissions u [Permission.ADMIN] = false)
    (hu : ∀ u, getUserBySecretNoPassword af env.users ui.accessToken = some u →
          hasPermissions u [Permission.ADMIN] = false)
    (hd : ∀ u, getUserBySecretNoPassword af env.users token = some u →
          hasPermissions u [Permission.ADMIN] = false) :
    createClub env freshId af cf ci = (.ok ⟨false, none⟩, env) ∧
    updateClub env af uf ui = (.ok ⟨false, none⟩, env) ∧
    deleteClub env af df token id = (⟨false, none⟩, env) := by
  refine ⟨?_, ?_, ?_⟩
  · cases hres : getUserBySecretNoPassword af env.users ci.accessToken with
    | none => simp [createClub, hci, hres]
    | some u => simp [createClub, hci, hres, hc u hres]
  · cases hres : getUserBySecretNoPassword af env.users ui.accessToken with
    | none => simp [updateClub, hui, hres]
    | some u => simp [updateClub, hui, hres, hu u hres]
  · cases hres : getUserBySecretNoPassword af env.users token with
    | none => simp [deleteClub, hres]
    | some u => simp [deleteClub, hres, hd u hres]

/-- C1 (witness): the amended refusal theorem at a concrete input — an empty
identity store, so no token resolves. -/
theorem unauthorized_mutations_refused_without_effect_witness :
    createClub env0 "id-1" false false okCreateInput = (.ok ⟨false, none⟩, env0) ∧
    updateClub env0 false false okUpdateInput = (.ok ⟨false, none⟩, env0) ∧
    deleteClub env0 false false "sometoken" "club-1" = (⟨false, none⟩, env0) :=
  unauthorized_mutations_refused_without_effect env0 "id-1" false false false false
    okCreateInput okUpdateInput "sometoken" "club-1" (by decide) (by decide)
    (fun u h => by simp [getUserBySecretNoPassword, dalFindOne, env0] at h)
    (fun u h => by simp [getUserBySecretNoPassword, dalFindOne, env0] at h)
    (fun u h => by simp [getUserBySecretNoPassword, dalFindOne, env0] at h)

/-- C2 (counterexample): with an invalid payload AND an unauthorized token,
the caller is refused for the validation reason, not the authorization
reason: the result is the thrown validation error, not the refusal
envelope; indeed the result is the same validation error even under an
ADMIN token, showing authorization is never consulted. -/
theorem validation_checked_before_authorization_cex :
    (createClub env0 "id-1" false false badCreateInput).1 = .error .validationError ∧
    (updateClub env0 false false badUpdateInput).1 = .error .validationError ∧
    (createClub envAdmin "id-1" false false
      { badCreateInput with accessToken := "admintoken" }).1 = .error .validationError ∧
    (updateClub env0 false false badUpdateInput).1 ≠ .ok ⟨false, none⟩ := by
  exact ⟨rfl, rfl, rfl, validationError_ne_refusal_envelope⟩

/-- C2 (amended): validation is checked before authorization — when the
payload fails the input schema, `createClub` and `updateClub` reject with
the thrown validation error, the identity store is never consulted (any
user table and any fault flags give the same outcome) and the state is
unchanged. -/
theorem invalid_payload_rejected_before_authorization (env : Env)
    (freshId : String) (af cf uf : Bool) (ci : CreateClubInput)
    (ui : UpdateClubInput)
    (hci : createClubParseOk ci = false)
    (hui : updateClubParseOk ui = false) :
    createClub env freshId af cf ci = (.error .validationError, env) ∧
    updateClub env af uf ui = (.error .validationError, env) := by
  exact ⟨by simp [createClub, hci], by simp [updateClub, hui]⟩

/-- C2 (witness): the amended theorem at a concrete input — empty-name
payloads under an ADMIN-holding store. -/
theorem invalid_payload_rejected_before_authorization_witness :
    createClub envAdmin "id-1" false false badCreateInput =
      (.error .validationError, envAdmin) ∧
    updateClub envAdmin false false badUpdateInput =
      (.error .validationError, envAdmin) :=
  invalid_payload_rejected_before_authorization envAdmin "id-1" false false false
    badCreateInput badUpdateInput (by decide) (by decide)

/-- The create input schema passes only when `name` is within `[1,50]` and
`description` within `[1,100]`. -/
theorem createClubParseOk_bounds (i : CreateClubInput)
    (h : createClubParseOk i = true) :
    1 ≤ i.name.length ∧ i.name.length ≤ 50 ∧
    1 ≤ i.description.length ∧ i.description.length ≤ 100 := by
  unfold createClubParseOk zodMaxOk zodMinOk at h
  simp [config_club_max_name, config_club_min_name,
        config_club_max_description, config_club_min_description] at h
  omega

/-- The update input schema passes only when `name` is within `[1,50]` and
`description` within `[1,100]`. -/
theorem updateClubParseOk_bounds (i : UpdateClubInput)
    (h : updateClubParseOk i = true) :
    1 ≤ i.name.length ∧ i.name.length ≤ 50 ∧
    1 ≤ i.description.length ∧ i.description.length ≤ 100 := by
  unfold updateClubParseOk zodMaxOk zodMinOk at h
  simp [config_club_max_name, config_club_min_name,
        config_club_max_description, config_club_min_description] at h
  omega

/-- C3 (counterexample): an out-of-bounds payload under a valid ADMIN token
does not yield the `{success:false, club:null}` envelope — the RPC throws
the validation error instead (the state is indeed unchanged). -/
theorem out_of_bounds_payload_not_envelope_cex :
    (createClub envAdmin "id-1" false false
      { badCreateInput with accessToken := "admintoken" }).1 = .error .validationError ∧
    (createClub envAdmin "id-1" false false
      { badCreateInput with accessToken := "admintoken" }).1 ≠ .ok ⟨false, none⟩ ∧
    (createClub envAdmin "id-1" false false
      { badCreateInput with accessToken := "admintoken" }).2 = envAdmin := by
  exact ⟨rfl, validationError_ne_refusal_envelope, rfl⟩

/-- C3 (amended): for every payload whose `name` length lies outside
`[1,50]` or whose `description` length lies outside `[1,100]`, `createClub`
and `updateClub` reject with the thrown input-validation error (not the
refusal envelope) and leave the stored state unchanged. -/
theorem out_of_bounds_payload_validation_error (env : Env) (freshId : String)
    (af cf uf : Bool) (ci : CreateClubInput) (ui : UpdateClubInput)
    (hci : ci.name.length < 1 ∨ 50 < ci.name.length ∨
           ci.description.length < 1 ∨ 100 < ci.description.length)
    (hui : ui.name.length < 1 ∨ 50 < ui.name.length ∨
           ui.description.length < 1 ∨ 100 < ui.description.length) :
    createClub env freshId af cf ci = (.error .validationError, env) ∧
    updateClub env af uf ui = (.error .validationError, env) := by
  have hc : createClubParseOk ci = false := by
    cases hcp : createClubParseOk ci with
    | false => rfl
    | true => have := createClubParseOk_bounds ci hcp; omega
  have hu : updateClubParseOk ui = false := by
    cases hup : updateClubParseOk ui with
    | false => rfl
    | true => have := updateClubParseOk_bounds ui hup; omega
  exact ⟨by simp [createClub, hc], by simp [updateClub, hu]⟩

/-- C3 (witness): the amended theorem at concrete out-of-bounds payloads. -/
theorem out_of_bounds_payload_validation_error_witness :
    createClub envAdmin "id-1" false false
      { badCreateInput with accessToken := "admintoken" } =
      (.error .validationError, envAdmin) ∧
    updateClub envAdmin false false badUpdateInput =
      (.error .validationError, envAdmin) :=
  out_of_bounds_payload_validation_error envAdmin "id-1" false false false
    { badCreateInput with accessToken := "admintoken" } badUpdateInput
    (by decide) (by decide)

/-! ## The linktree bound and defaults (claims C4, C6, C7) -/

/-- A 150-character linktree, well outside the `[1,100]` bound the spec
requires. -/
def longLinktree : String := String.mk (List.replicate 150 'a')

/-- A create payload carrying the oversized linktree under the ADMIN token. -/
def longLinktreeInput : CreateClubInput :=
  ⟨"admintoken", "Chess Club", "We play chess", some longLinktree, none⟩

set_option maxRecDepth 4000 in
/-- C4: a linktree of length 150 passes the input schema (the
`config.club.max.linktree` / `config.club.min.linktree` keys are missing,
so the zod bounds are `undefined` and the checks are vacuous) and the club
is stored with it — the out-of-bounds linktree reaches storage. -/
theorem oversized_linktree_reaches_storage :
    100 < longLinktree.length ∧
    createClubParseOk longLinktreeInput = true ∧
    (createClub envAdmin "fresh-id" false false longLinktreeInput).1 =
      .ok ⟨true, some ⟨"fresh-id", "Chess Club", "We play chess",
        some longLinktree, some config_club_default_image⟩⟩ ∧
    (createClub envAdmin "fresh-id" false false longLinktreeInput).2.clubs =
      [⟨"fresh-id", "Chess Club", "We play chess", some longLinktree,
        some config_club_default_image⟩] := by
  refine ⟨by decide, by decide, rfl, rfl⟩

/-- A valid create payload omitting both `linktree` and `image`, under the
ADMIN token. -/
def omittedOptionalsInput : CreateClubInput :=
  ⟨"admintoken", "Chess Club", "We play chess", none, none⟩

/-- C7: with `linktree` and `image` omitted, the created club's `image` is
the fixed placeholder path, but its `linktree` is `undefined` (the
`config.club.default.linktree` key is missing), not the empty string. -/
theorem omitted_linktree_stored_undefined_not_empty :
    (createClub envAdmin "fresh-id" false false omittedOptionalsInput).1 =
      .ok ⟨true, some ⟨"fresh-id", "Chess Club", "We play chess",
        none, some "/images/default-club-image.png"⟩⟩ ∧
    (none : Option String) ≠ some "" := by
  refine ⟨rfl, by decide⟩

/-- Looking up a fresh id after appending the new row finds the new row. -/
theorem find?_append_fresh (clubs : List Club) (c : Club)
    (h : ∀ x ∈ clubs, (x.id == c.id) = false) :
    (clubs ++ [c]).find? (fun x => x.id == c.id) = some c := by
  rw [List.find?_append]
  have h1 : clubs.find? (fun x => x.id == c.id) = none :=
    List.find?_eq_none.2 (by intro x hx; simp [h x hx])
  rw [h1, Option.none_or, List.find?_cons_of_pos _ (by simp)]

/-- C6: with a payload passing the schema, a token resolving to an ADMIN
identity, a healthy store and a fresh generated id, `createClub` succeeds
with the built club, and `getClub` on the returned club's id yields a club
whose `name`, `description`, `linktree` (the applied default included) and
`image` (the applied default included) are identical to the created one's. -/
theorem create_then_get_roundtrip (env : Env) (freshId : String)
    (ci : CreateClubInput) (u : User)
    (hparse : createClubParseOk ci = true)
    (hauth : getUserBySecretNoPassword false env.users ci.accessToken = some u)
    (hadmin : hasPermissions u [Permission.ADMIN] = true)
    (hfresh : ∀ x ∈ env.clubs, x.id ≠ freshId) :
    createClub env freshId false false ci =
      (.ok ⟨true, some (builtClub freshId ci)⟩,
        ⟨env.users, env.clubs ++ [builtClub freshId ci]⟩) ∧
    getClub ⟨env.users, env.clubs ++ [builtClub freshId ci]⟩ false
        (builtClub freshId ci).id = ⟨true, some (builtClub freshId ci)⟩ ∧
    (builtClub freshId ci).name = ci.name ∧
    (builtClub freshId ci).description = ci.description ∧
    (builtClub freshId ci).linktree = jsOr ci.linktree config_club_default_linktree ∧
    (builtClub freshId ci).image = jsOr ci.image (some config_club_default_image) := by
  refine ⟨?_, ?_, rfl, rfl, rfl, rfl⟩
  · simp [createClub, hparse, hauth, hadmin, dalCreate]
  · have hnone : List.find? (fun c => c.id == freshId) env.clubs = none :=
      List.find?_eq_none.2 (fun x hx => by simp [hfresh x hx])
    simp [getClub, dalFindOne, builtClub, hnone]

/-- The round-trip example of the spec: `{name: "Chess Club", description:
"We play chess", linktree: ""}` under the ADMIN token. -/
def rtInput : CreateClubInput :=
  ⟨"admintoken", "Chess Club", "We play chess", some "", none⟩

/-- C6 (witness): the round trip at the spec's example scenario. -/
theorem create_then_get_roundtrip_witness :
    createClub envAdmin "fresh-id" false false rtInput =
      (.ok ⟨true, some (builtClub "fresh-id" rtInput)⟩,
        ⟨envAdmin.users, envAdmin.clubs ++ [builtClub "fresh-id" rtInput]⟩) ∧
    getClub ⟨envAdmin.users, envAdmin.clubs ++ [builtClub "fresh-id" rtInput]⟩
        false (builtClub "fresh-id" rtInput).id =
      ⟨true, some (builtClub "fresh-id" rtInput)⟩ ∧
    (builtClub "fresh-id" rtInput).name = rtInput.name ∧
    (builtClub "fresh-id" rtInput).description = rtInput.description ∧
    (builtClub "fresh-id" rtInput).linktree =
      jsOr rtInput.linktree config_club_default_linktree ∧
    (builtClub "fresh-id" rtInput).image =
      jsOr rtInput.image (some config_club_default_image) :=
  create_then_get_roundtrip envAdmin "fresh-id" rtInput adminUser
    (by decide) rfl rfl (by intro x hx; simp [envAdmin] at hx)

/-! ## Empty-string image handling (claim C10) -/

/-- The image actually stored, `x || config.club.default.image`, is never
the empty string and never `undefined`. -/
theorem jsOr_default_image_nonempty (x : Option String) :
    jsOr x (some config_club_default_image) ≠ some "" ∧
    jsOr x (some config_club_default_image) ≠ none := by
  unfold jsOr
  cases x with
  | none => simp [config_club_default_image]
  | some s => by_cases h : s = "" <;> simp [h, config_club_default_image]

/-- Any row of the table after `updateClubById` was already there or holds
the patched image. -/
theorem updateClubById_mem (clubs : List Club) (id name description : String)
    (image : Option String) (c : Club)
    (hc : c ∈ (updateClubById clubs id name description image).2) :
    c ∈ clubs ∨ c.image = image := by
  unfold updateClubById at hc
  split at hc
  · exact Or.inl hc
  · rcases List.mem_map.1 hc with ⟨a, ha, hfa⟩
    by_cases hid : (a.id == id) = true
    · rw [if_pos hid] at hfa
      subst hfa
      exact Or.inr rfl
    · rw [if_neg hid] at hfa
      subst hfa
      exact Or.inl ha

/-- C10: `createClub` and `updateClub` treat a present-but-empty `image`
exactly like an absent one (the full calls are equal), and any club row the
two procedures persist that was not already in the table carries a
non-empty, defined image — never the empty string. -/
theorem empty_image_same_as_absent_image (env : Env) (freshId : String)
    (af cf uf : Bool) (ci : CreateClubInput) (ui : UpdateClubInput) :
    createClub env freshId af cf { ci with image := some "" } =
      createClub env freshId af cf { ci with image := none } ∧
    updateClub env af uf { ui with image := some "" } =
      updateClub env af uf { ui with image := none } ∧
    (∀ c ∈ (createClub env freshId af cf ci).2.clubs, c ∈ env.clubs ∨
      (c.image ≠ some "" ∧ c.image ≠ none)) ∧
    (∀ c ∈ (updateClub env af uf ui).2.clubs, c ∈ env.clubs ∨
      (c.image ≠ some "" ∧ c.image ≠ none)) := by
  refine ⟨?_, ?_, ?_, ?_⟩
  · simp [createClub, createClubParseOk, builtClub, jsOr]
  · simp [updateClub, updateClubParseOk, jsOr]
  · intro c hc
    unfold createClub at hc
    split at hc
    · exact Or.inl hc
    · split at hc
      · exact Or.inl hc
      · split at hc
        · exact Or.inl hc
        · split at hc
          · exact Or.inl hc
          · rcases List.mem_append.1 hc with h | h
            · exact Or.inl h
            · rw [List.mem_singleton] at h
              subst h
              exact Or.inr (jsOr_default_image_nonempty ci.image)
  · intro c hc
    unfold updateClub at hc
    split at hc
    · exact Or.inl hc
    · split at hc
      · exact Or.inl hc
      · split at hc
        · exact Or.inl hc
        · split at hc
          · exact Or.inl hc
          · split at hc
            · exact Or.inl hc
            · rename_i updated clubs' heq
              have hc' : c ∈ (updateClubById env.clubs ui.id ui.name
                  ui.description (jsOr ui.image (some config_club_default_image))).2 := by
                rw [heq]
                exact hc
              rcases updateClubById_mem _ _ _ _ _ _ hc' with h | h
              · exact Or.inl h
              · exact Or.inr (h ▸ jsOr_default_image_nonempty ui.image)

end Clubs
